import Mathlib

/-!
Verification of `ios/generate_swift_bindings.py`, a one-shot command-line
helper that generates Swift bindings for the MePassa core via uniffi-bindgen.

The script is sequential glue code; its behaviour depends on an external
world (file existence, the Python import machinery, the uniffi generator,
the cargo subprocess).  We embed it shallowly: the external world is an
`Env` record, the output directory is an `FS` record, each `print` call is
one `Line` event, and `run` is a straight-line translation of `main`
(`ios/generate_swift_bindings.py`, lines 11-105) together with the Python
interpreter's top-level behaviour (an uncaught `SystemExit n` terminates the
process with status `n`; any other uncaught exception prints a traceback and
terminates with status 1).
-/

namespace GenerateSwiftBindings

/-- A filesystem path, as its list of components (mirrors `pathlib.Path`;
`parent` is dropping the last component). -/
def pathStr (parts : List String) : String := String.intercalate "/" parts

/-- The five paths resolved at the top of `main` (lines 13-17) from the
directory containing the script (`Path(__file__).parent`). -/
structure Paths where
  coreDir : List String
  udlFile : List String
  libFile : List String
  outDir : List String
deriving Repr, DecidableEq

/-- Path resolution of `main`, lines 13-17:
`project_root = Path(__file__).parent.parent`, `core_dir = project_root/"core"`,
`udl_file = core_dir/"src"/"mepassa.udl"`,
`lib_file = project_root/"target"/"release"/"libmepassa_core.dylib"`,
`out_dir = Path(__file__).parent/"MePassa"/"Generated"`. -/
def mkPaths (scriptDir : List String) : Paths :=
  let projectRoot := scriptDir.dropLast
  let coreDir := projectRoot ++ ["core"]
  { coreDir := coreDir
    udlFile := coreDir ++ ["src", "mepassa.udl"]
    libFile := projectRoot ++ ["target", "release", "libmepassa_core.dylib"]
    outDir := scriptDir ++ ["MePassa", "Generated"] }

/-- The Python exceptions relevant to the script.  `importError` models
`ImportError` (a subclass of `Exception`), `systemExit` models
`SystemExit` (a subclass of `BaseException` but NOT of `Exception`, so
`except Exception` does not catch it), `otherExc` models any other
ordinary `Exception` (carrying its `str(e)` message). -/
inductive PyExc where
  | importError (msg : String)
  | systemExit (code : Nat)
  | otherExc (msg : String)
deriving Repr, DecidableEq

/-- Whether a raised exception is caught by an `except Exception` clause:
true for `ImportError` and ordinary exceptions, false for `SystemExit`. -/
def PyExc.isException : PyExc → Bool
  | .systemExit _ => false
  | _ => true

/-- The `str(e)` text, as interpolated by the `print` of line 87. -/
def PyExc.message : PyExc → String
  | .importError m => m
  | .systemExit c => toString c
  | .otherExc m => m

/-- The state of the output directory (the only part of the filesystem the
script mutates): whether `out_dir` exists and the names of its entries. -/
structure FS where
  outDirExists : Bool
  outDirFiles : List String
deriving Repr, DecidableEq

/-- The call `out_dir.mkdir(parents=True, exist_ok=True)` (line 37): creates the
directory if absent (then empty), leaves it untouched if present. -/
def FS.mkdirOut (fs : FS) : FS :=
  if fs.outDirExists then fs else { outDirExists := true, outDirFiles := [] }

/-- The binding generator writing files named `names` into `out_dir`
(side effect of `generate_bindings` or of the cargo subprocess): existing
entries with the same name are overwritten, others are kept. -/
def FS.writeFiles (fs : FS) (names : List String) : FS :=
  { fs with outDirFiles := fs.outDirFiles.filter (fun n => !names.contains n) ++ names }

/-- One `print(...)` call of the script.  Literal prints are `.text` with
the exact printed string; prints interpolating a dynamic value get a
dedicated constructor carrying that value. -/
inductive Line where
  | text (s : String)
  | udlHeader (p : String)
  | libHeader (p : String)
  | outHeader (p : String)
  | libNotFound (p : String)
  | udlNotFound (p : String)
  | stderrText (s : String)
  | fallbackError (msg : String)
  | fileEntry (name : String)
deriving Repr, DecidableEq

/-- Result of `subprocess.run([...], capture_output=True, text=True)`
(lines 68-77) when the process could be spawned: its return code, its
captured standard error, and the files it wrote into `out_dir`. -/
structure SubprocRes where
  returncode : Int
  stderr : String
  filesWritten : List String
deriving Repr, DecidableEq

/-- The external world of one run: which input paths exist, whether the
two import statements succeed (failing with `ImportError` otherwise), the
outcome of the `generate_bindings` call (files written, or an exception),
the outcome of `os.chdir(core_dir)` and of `subprocess.run`. -/
structure Env where
  libExists : Bool
  udlExists : Bool
  importModuleOk : Bool
  importFromOk : Bool
  genResult : Except PyExc (List String)
  chdirExc : Option PyExc
  subprocRes : Except PyExc SubprocRes
deriving Repr

/-- Observable outcome of one run of the script: process exit status, the
lines printed by the script, the uncaught non-`SystemExit` exception (if
any; the interpreter then prints its traceback on stderr), the final state
of the output directory, and whether the `generate_bindings` call and the
`subprocess.run` call were reached. -/
structure RunResult where
  exitCode : Nat
  output : List Line
  uncaught : Option PyExc
  fs : FS
  genCalled : Bool
  subprocCalled : Bool
deriving Repr

/-- Lines 19-22. -/
def headerLines (p : Paths) : List Line :=
  [.text "🔨 Generating Swift bindings for MePassa Core...",
   .udlHeader (pathStr p.udlFile),
   .libHeader (pathStr p.libFile),
   .outHeader (pathStr p.outDir)]

/-- Lines 26-28. -/
def libErrLines (p : Paths) : List Line :=
  [.libNotFound (pathStr p.libFile),
   .text "   Please build the library first:",
   .text "   cd core && cargo build --release"]

/-- Line 33. -/
def udlErrLines (p : Paths) : List Line :=
  [.udlNotFound (pathStr p.udlFile)]

/-- Lines 58-59. -/
def fallbackNoticeLines : List Line :=
  [.text "⚠️  uniffi_bindgen Python module not found",
   .text "   Trying cargo-based approach..."]

/-- Lines 87-90: the `except Exception` handler's output. -/
def manualGuidanceLines (msg : String) : List Line :=
  [.fallbackError msg,
   .text "\nManual generation required:",
   .text "1. Install uniffi-bindgen Python: pip install uniffi-bindgen",
   .text "2. Or use the Rust example: cd core && cargo run --example generate_bindings"]

/-- Lines 99-102. -/
def nextStepLines : List Line :=
  [.text "\n🎯 Next steps:",
   .text "   1. Add generated files to Xcode project",
   .text "   2. Add libmepassa_core.a to \x27Frameworks and Libraries\x27",
   .text "   3. Import mepassa in Swift: import mepassa"]

/-- The call `out_dir.glob("*")` (line 96): enumerating a directory that does not
exist raises; the script only calls it under an `exists()` guard. -/
def globStar (fs : FS) : Except PyExc (List String) :=
  if fs.outDirExists then .ok fs.outDirFiles
  else .error (.otherExc "FileNotFoundError")

/-- The `sorted(...)` of line 96: all globbed paths live in the same directory,
so sorting the `Path` values is sorting the names lexicographically. -/
def sortNames (l : List String) : List String :=
  l.mergeSort (fun a b => a ≤ b)

/-- The per-file lines `print(f"   - {file.name}")` (line 97). -/
def fileEntryLines (names : List String) : List Line :=
  (sortNames names).map .fileEntry

/-- The result-reporting tail of `main` (lines 93-102): list the generated
files if `out_dir` exists, then print the fixed next-step instructions. -/
def reportStep (fs : FS) : Except PyExc (List Line) :=
  if fs.outDirExists then
    match globStar fs with
    | .error e => .error e
    | .ok names =>
      .ok ((Line.text "\n📝 Generated files:" :: fileEntryLines names) ++ nextStepLines)
  else
    .ok nextStepLines

/-- Falling off the end of the `try` statement into lines 93-102 and then
returning from `main`: status 0 on a normal return, an uncaught exception
from the reporting step otherwise. -/
def finishRun (out : List Line) (fs : FS) (gen sub : Bool) : RunResult :=
  match reportStep fs with
  | .ok ls =>
    { exitCode := 0, output := out ++ ls, uncaught := none, fs := fs,
      genCalled := gen, subprocCalled := sub }
  | .error e =>
    { exitCode := 1, output := out, uncaught := some e, fs := fs,
      genCalled := gen, subprocCalled := sub }

/-- An exception `e` raised inside the inner `try` (lines 62-84) reaching
the `except Exception as e` clause (lines 86-91): ordinary exceptions are
caught, the guidance is printed and `sys.exit(1)` terminates the process;
`SystemExit` is not caught and terminates the process with its code. -/
def handleInnerExc (e : PyExc) (out : List Line) (fs : FS) (gen sub : Bool) :
    RunResult :=
  if e.isException then
    { exitCode := 1, output := out ++ manualGuidanceLines e.message,
      uncaught := none, fs := fs, genCalled := gen, subprocCalled := sub }
  else
    match e with
    | .systemExit n =>
      { exitCode := n, output := out, uncaught := none, fs := fs,
        genCalled := gen, subprocCalled := sub }
    | e' =>
      { exitCode := 1, output := out, uncaught := some e', fs := fs,
        genCalled := gen, subprocCalled := sub }

/-- The `except ImportError` fallback (lines 57-91): print the notice,
`os.chdir(core_dir)`, run uniffi-bindgen through cargo, branch on the
return code; exceptions of the inner `try` go to `handleInnerExc`. -/
def fallbackRun (env : Env) (out : List Line) (fs : FS) (gen : Bool) :
    RunResult :=
  let out := out ++ fallbackNoticeLines
  match env.chdirExc with
  | some e => handleInnerExc e out fs gen false
  | none =>
    match env.subprocRes with
    | .error e => handleInnerExc e out fs gen true
    | .ok res =>
      let fs' := fs.writeFiles res.filesWritten
      if res.returncode = 0 then
        finishRun (out ++ [.text "✅ Swift bindings generated successfully!"]) fs' gen true
      else
        handleInnerExc (.systemExit 1)
          (out ++ [.text "❌ Error generating bindings:", .stderrText res.stderr])
          fs' gen true

/-- The function `main` (lines 11-105) plus the interpreter's handling of whatever
escapes it: path setup and banner, the two existence checks with
`sys.exit(1)`, `out_dir.mkdir`, the `try: import …; generate_bindings(…)`
with its `except ImportError` fallback, and the reporting tail. -/
def run (scriptDir : List String) (env : Env) (fs0 : FS) : RunResult :=
  let p := mkPaths scriptDir
  let out := headerLines p
  if env.libExists = false then
    { exitCode := 1, output := out ++ libErrLines p, uncaught := none,
      fs := fs0, genCalled := false, subprocCalled := false }
  else if env.udlExists = false then
    { exitCode := 1, output := out ++ udlErrLines p, uncaught := none,
      fs := fs0, genCalled := false, subprocCalled := false }
  else
    let fs1 := fs0.mkdirOut
    if env.importModuleOk then
      let out2 := out ++ [.text "✅ Found uniffi_bindgen Python module"]
      if env.importFromOk then
        match env.genResult with
        | .ok files =>
          let fs2 := fs1.writeFiles files
          finishRun (out2 ++ [.text "✅ Swift bindings generated successfully!"]) fs2 true false
        | .error (.importError _) =>
          fallbackRun env out2 fs1 true
        | .error (.systemExit n) =>
          { exitCode := n, output := out2, uncaught := none, fs := fs1,
            genCalled := true, subprocCalled := false }
        | .error e =>
          { exitCode := 1, output := out2, uncaught := some e, fs := fs1,
            genCalled := true, subprocCalled := false }
      else
        fallbackRun env out2 fs1 false
    else
      fallbackRun env out fs1 false

/-! Sample runs used as concrete witnesses. -/

/-- An initially absent output directory. -/
def fsEmpty : FS := { outDirExists := false, outDirFiles := [] }

/-- A fully healthy run: both inputs present, the in-process generator
importable and writing two files. -/
def envOk : Env where
  libExists := true
  udlExists := true
  importModuleOk := true
  importFromOk := true
  genResult := .ok ["mepassa.swift", "mepassaFFI.h"]
  chdirExc := none
  subprocRes := .ok { returncode := 0, stderr := "", filesWritten := [] }

/-- The compiled library is missing (and so is the UDL file). -/
def envNoInputs : Env := { envOk with libExists := false, udlExists := false }

/-- The `generate_bindings` call raises an ordinary (non-import) exception. -/
def envGenBoom : Env := { envOk with genResult := .error (.otherExc "boom") }

/-- The uniffi module is not installed and the cargo subprocess fails
with a non-zero status. -/
def envBadSub : Env :=
  { envOk with
      importModuleOk := false
      subprocRes := .ok { returncode := 101, stderr := "error: no bin target", filesWritten := [] } }

/-- The uniffi module is not installed and `os.chdir` raises. -/
def envChdirFail : Env :=
  { envOk with importModuleOk := false, chdirExc := some (.otherExc "chdir fail") }

/-- The uniffi module is not installed, the cargo subprocess succeeds. -/
def envNoModule : Env := { envOk with importModuleOk := false }

/-- The uniffi module is not installed; the cargo subprocess succeeds and
writes two files (unsorted). -/
def envSubFiles : Env :=
  { envOk with
      importModuleOk := false
      subprocRes := .ok { returncode := 0, stderr := "", filesWritten := ["mepassa.swift", "mepassaFFI.h"] } }

/-- The runs that reach the `except ImportError` fallback (lines 57-91):
one of the two import statements failed, or the `generate_bindings` call
itself raised an `ImportError`. -/
def fallbackTaken (env : Env) : Prop :=
  env.importModuleOk = false ∨ env.importFromOk = false ∨
    ∃ m, env.genResult = .error (.importError m)

/-! Helper lemmas. -/

@[simp] theorem FS.mkdirOut_outDirExists (fs : FS) :
    fs.mkdirOut.outDirExists = true := by
  simp [FS.mkdirOut]; split <;> simp_all

@[simp] theorem FS.writeFiles_outDirExists (fs : FS) (ns : List String) :
    (fs.writeFiles ns).outDirExists = fs.outDirExists := rfl

@[simp] theorem handleInnerExc_fs (e : PyExc) (out : List Line) (fs : FS) (g s : Bool) :
    (handleInnerExc e out fs g s).fs = fs := by
  cases e <;> simp [handleInnerExc, PyExc.isException]

@[simp] theorem finishRun_fs (out : List Line) (fs : FS) (g s : Bool) :
    (finishRun out fs g s).fs = fs := by
  cases h : reportStep fs <;> simp [finishRun, h]

@[simp] theorem fallbackRun_fs_outDirExists (env : Env) (out : List Line) (fs : FS) (g : Bool) :
    (fallbackRun env out fs g).fs.outDirExists = fs.outDirExists := by
  unfold fallbackRun
  rcases hch : env.chdirExc with _ | e
  · rcases hs : env.subprocRes with e | res
    · simp
    · by_cases hrc : res.returncode = 0 <;> simp [hrc]
  · simp

/-- C1: if the compiled library or the UDL file is missing, the run exits
with status 1, prints the corresponding error message, and reaches neither
the `generate_bindings` call nor the subprocess invocation. -/
theorem missing_input_aborts (sd : List String) (env : Env) (fs : FS)
    (h : env.libExists = false ∨ env.udlExists = false) :
    (run sd env fs).exitCode = 1 ∧
    (run sd env fs).genCalled = false ∧
    (run sd env fs).subprocCalled = false ∧
    (env.libExists = false →
      Line.libNotFound (pathStr (mkPaths sd).libFile) ∈ (run sd env fs).output) ∧
    (env.libExists = true →
      Line.udlNotFound (pathStr (mkPaths sd).udlFile) ∈ (run sd env fs).output) := by
  rcases h with h | h
  · simp [run, h, headerLines, libErrLines]
  · cases hl : env.libExists
    · simp [run, hl, headerLines, libErrLines]
    · simp [run, h, hl, headerLines, udlErrLines]

/-- Witness for C1 at a concrete run with both inputs missing. -/
theorem missing_input_aborts_witness :
    (envNoInputs.libExists = false ∨ envNoInputs.udlExists = false) ∧
    ((run ["repo", "ios"] envNoInputs fsEmpty).exitCode = 1 ∧
     (run ["repo", "ios"] envNoInputs fsEmpty).genCalled = false ∧
     (run ["repo", "ios"] envNoInputs fsEmpty).subprocCalled = false ∧
     (envNoInputs.libExists = false →
       Line.libNotFound (pathStr (mkPaths ["repo", "ios"]).libFile) ∈
         (run ["repo", "ios"] envNoInputs fsEmpty).output) ∧
     (envNoInputs.libExists = true →
       Line.udlNotFound (pathStr (mkPaths ["repo", "ios"]).udlFile) ∈
         (run ["repo", "ios"] envNoInputs fsEmpty).output)) :=
  ⟨Or.inl rfl,
   missing_input_aborts ["repo", "ios"] envNoInputs fsEmpty (Or.inl rfl)⟩

/-- C8: when both inputs are missing, the library check fires first: the
output is exactly the banner plus the library-missing guidance (the
UDL-missing message is never printed) and the run exits with status 1. -/
theorem both_missing_only_library_message (sd : List String) (env : Env) (fs : FS)
    (hl : env.libExists = false) (hu : env.udlExists = false) :
    (run sd env fs).output = headerLines (mkPaths sd) ++ libErrLines (mkPaths sd) ∧
    (run sd env fs).exitCode = 1 ∧
    (∀ s, Line.udlNotFound s ∉ (run sd env fs).output) := by
  refine ⟨?_, ?_, ?_⟩ <;>
    simp [run, hl, headerLines, libErrLines]

/-- Witness for C8 at a concrete run with both inputs missing. -/
theorem both_missing_only_library_message_witness :
    envNoInputs.libExists = false ∧ envNoInputs.udlExists = false ∧
    ((run ["repo", "ios"] envNoInputs fsEmpty).output =
       headerLines (mkPaths ["repo", "ios"]) ++ libErrLines (mkPaths ["repo", "ios"]) ∧
     (run ["repo", "ios"] envNoInputs fsEmpty).exitCode = 1 ∧
     (∀ s, Line.udlNotFound s ∉ (run ["repo", "ios"] envNoInputs fsEmpty).output)) :=
  ⟨rfl, rfl,
   both_missing_only_library_message ["repo", "ios"] envNoInputs fsEmpty rfl rfl⟩

/-- C9: once both existence checks pass, `out_dir.mkdir(parents=True,
exist_ok=True)` runs before either generation strategy, so the output
directory exists at the end of every such run — also when generation
fails — i.e. the filesystem is not left unchanged on generation error. -/
theorem outdir_exists_after_run (sd : List String) (env : Env) (fs : FS)
    (hl : env.libExists = true) (hu : env.udlExists = true) :
    (run sd env fs).fs.outDirExists = true := by
  cases him : env.importModuleOk <;>
    cases hif : env.importFromOk <;>
    rcases hg : env.genResult with (m | n | m) | files <;>
    simp [run, hl, hu, him, hif, hg]

/-- Witness for C9 at a concrete failing run (subprocess exits non-zero)
starting from an absent output directory. -/
theorem outdir_exists_after_run_witness :
    envBadSub.libExists = true ∧ envBadSub.udlExists = true ∧
    (run ["repo", "ios"] envBadSub fsEmpty).fs.outDirExists = true :=
  ⟨rfl, rfl, outdir_exists_after_run ["repo", "ios"] envBadSub fsEmpty rfl rfl⟩

/-- C6: the result-reporting step never raises, for every state of the
output directory: an absent directory skips the listing, an empty one
produces no file entries, and the fixed next-step instructions are printed
in every case. -/
theorem report_step_total (fs : FS) :
    (∃ ls, reportStep fs = .ok ls ∧ nextStepLines <:+ ls) ∧
    (fs.outDirExists = false → reportStep fs = .ok nextStepLines) ∧
    (fs.outDirExists = true → fs.outDirFiles = [] →
      reportStep fs = .ok (Line.text "\n📝 Generated files:" :: nextStepLines)) := by
  refine ⟨?_, ?_, ?_⟩
  · cases he : fs.outDirExists
    · exact ⟨nextStepLines, by simp [reportStep, globStar, he], List.suffix_refl _⟩
    · refine ⟨(Line.text "\n📝 Generated files:" :: fileEntryLines fs.outDirFiles) ++
        nextStepLines, by simp [reportStep, globStar, he], List.suffix_append _ _⟩
  · intro he
    simp [reportStep, globStar, he]
  · intro he hnil
    simp [reportStep, globStar, he, hnil, fileEntryLines, sortNames]

/-- Witness for C6: the reporting step on an absent and on an empty
output directory. -/
theorem report_step_total_witness :
    ((∃ ls, reportStep fsEmpty = .ok ls ∧ nextStepLines <:+ ls) ∧
     (fsEmpty.outDirExists = false → reportStep fsEmpty = .ok nextStepLines) ∧
     (fsEmpty.outDirExists = true → fsEmpty.outDirFiles = [] →
       reportStep fsEmpty = .ok (Line.text "\n📝 Generated files:" :: nextStepLines))) :=
  report_step_total fsEmpty

/-- C2: when both inputs exist and the in-process generator imports and
returns normally, having written at least one file, the run exits with
status 0 and the output directory is non-empty. -/
theorem inprocess_success_exit_zero (sd : List String) (env : Env) (fs : FS)
    (files : List String)
    (hl : env.libExists = true) (hu : env.udlExists = true)
    (him : env.importModuleOk = true) (hif : env.importFromOk = true)
    (hg : env.genResult = .ok files) (hne : files ≠ []) :
    (run sd env fs).exitCode = 0 ∧
    (run sd env fs).uncaught = none ∧
    (run sd env fs).fs.outDirExists = true ∧
    (run sd env fs).fs.outDirFiles ≠ [] := by
  simp [run, hl, hu, him, hif, hg, finishRun, reportStep, globStar,
    FS.writeFiles, hne]

/-- Witness for C2 at the healthy sample run. -/
theorem inprocess_success_exit_zero_witness :
    envOk.libExists = true ∧ envOk.udlExists = true ∧
    envOk.importModuleOk = true ∧ envOk.importFromOk = true ∧
    envOk.genResult = .ok ["mepassa.swift", "mepassaFFI.h"] ∧
    ["mepassa.swift", "mepassaFFI.h"] ≠ ([] : List String) ∧
    ((run ["repo", "ios"] envOk fsEmpty).exitCode = 0 ∧
     (run ["repo", "ios"] envOk fsEmpty).uncaught = none ∧
     (run ["repo", "ios"] envOk fsEmpty).fs.outDirExists = true ∧
     (run ["repo", "ios"] envOk fsEmpty).fs.outDirFiles ≠ []) :=
  ⟨rfl, rfl, rfl, rfl, rfl, by decide,
   inprocess_success_exit_zero ["repo", "ios"] envOk fsEmpty
     ["mepassa.swift", "mepassaFFI.h"] rfl rfl rfl rfl rfl (by decide)⟩

/-- C7: after a successful generation — through either strategy — the
output is the banner, the notices of the path that was taken, the listing
header, one entry per file of the output directory in lexicographically
sorted order, and the fixed next-step instruction lines: the same four
instruction lines on every successful run. -/
theorem success_output_sorted_listing (sd : List String) (env : Env) (fs : FS)
    (hl : env.libExists = true) (hu : env.udlExists = true) :
    (∀ files, env.importModuleOk = true → env.importFromOk = true →
      env.genResult = .ok files →
      (run sd env fs).output =
        headerLines (mkPaths sd) ++
        [.text "✅ Found uniffi_bindgen Python module",
         .text "✅ Swift bindings generated successfully!",
         .text "\n📝 Generated files:"] ++
        (sortNames ((fs.mkdirOut.writeFiles files).outDirFiles)).map Line.fileEntry ++
        nextStepLines ∧
      List.Sorted (· ≤ ·) (sortNames ((fs.mkdirOut.writeFiles files).outDirFiles))) ∧
    (∀ res, fallbackTaken env → env.chdirExc = none → env.subprocRes = .ok res →
      res.returncode = 0 →
      (run sd env fs).output =
        headerLines (mkPaths sd) ++
        (if env.importModuleOk = true
          then [Line.text "✅ Found uniffi_bindgen Python module"] else []) ++
        fallbackNoticeLines ++
        [.text "✅ Swift bindings generated successfully!",
         .text "\n📝 Generated files:"] ++
        (sortNames ((fs.mkdirOut.writeFiles res.filesWritten).outDirFiles)).map
          Line.fileEntry ++
        nextStepLines ∧
      List.Sorted (· ≤ ·)
        (sortNames ((fs.mkdirOut.writeFiles res.filesWritten).outDirFiles))) := by
  constructor
  · intro files him hif hg
    constructor
    · simp [run, hl, hu, him, hif, hg, finishRun, reportStep, globStar,
        fileEntryLines]
    · simpa [sortNames] using
        List.sorted_mergeSort' ((fs.mkdirOut.writeFiles files).outDirFiles)
  · intro res hf hch hsub hrc
    constructor
    · rcases hf with him | him | ⟨m, hm⟩ <;>
        cases him1 : env.importModuleOk <;>
        cases him2 : env.importFromOk <;>
        simp_all [run, fallbackRun, fallbackNoticeLines, finishRun, reportStep,
          globStar, fileEntryLines, headerLines]
    · simpa [sortNames] using
        List.sorted_mergeSort' ((fs.mkdirOut.writeFiles res.filesWritten).outDirFiles)

/-- Witness for C7 at a concrete fallback success (the cargo subprocess
writes two files, arriving unsorted). -/
theorem success_output_sorted_listing_witness :
    envSubFiles.libExists = true ∧ envSubFiles.udlExists = true ∧
    ((∀ files, envSubFiles.importModuleOk = true → envSubFiles.importFromOk = true →
        envSubFiles.genResult = .ok files →
        (run ["repo", "ios"] envSubFiles fsEmpty).output =
          headerLines (mkPaths ["repo", "ios"]) ++
          [.text "✅ Found uniffi_bindgen Python module",
           .text "✅ Swift bindings generated successfully!",
           .text "\n📝 Generated files:"] ++
          (sortNames ((fsEmpty.mkdirOut.writeFiles files).outDirFiles)).map
            Line.fileEntry ++
          nextStepLines ∧
        List.Sorted (· ≤ ·) (sortNames ((fsEmpty.mkdirOut.writeFiles files).outDirFiles))) ∧
     (∀ res, fallbackTaken envSubFiles → envSubFiles.chdirExc = none →
        envSubFiles.subprocRes = .ok res → res.returncode = 0 →
        (run ["repo", "ios"] envSubFiles fsEmpty).output =
          headerLines (mkPaths ["repo", "ios"]) ++
          (if envSubFiles.importModuleOk = true
            then [Line.text "✅ Found uniffi_bindgen Python module"] else []) ++
          fallbackNoticeLines ++
          [.text "✅ Swift bindings generated successfully!",
           .text "\n📝 Generated files:"] ++
          (sortNames ((fsEmpty.mkdirOut.writeFiles res.filesWritten).outDirFiles)).map
            Line.fileEntry ++
          nextStepLines ∧
        List.Sorted (· ≤ ·)
          (sortNames ((fsEmpty.mkdirOut.writeFiles res.filesWritten).outDirFiles)))) :=
  ⟨rfl, rfl,
   success_output_sorted_listing ["repo", "ios"] envSubFiles fsEmpty rfl rfl⟩

/-- C3: when both preconditions pass and an import of the in-process
generator raises `ImportError`, the run does not terminate there: it
prints the fallback notice, reaches the cargo subprocess, and (if that
subprocess succeeds) still exits with status 0 — the unavailability is
not itself fatal. -/
theorem import_failure_falls_back (sd : List String) (env : Env) (fs : FS)
    (res : SubprocRes)
    (hl : env.libExists = true) (hu : env.udlExists = true)
    (him : env.importModuleOk = false ∨ env.importFromOk = false)
    (hch : env.chdirExc = none) (hsub : env.subprocRes = .ok res) :
    (run sd env fs).subprocCalled = true ∧
    Line.text "   Trying cargo-based approach..." ∈ (run sd env fs).output ∧
    (res.returncode = 0 → (run sd env fs).exitCode = 0) := by
  by_cases hrc : res.returncode = 0 <;>
    cases him1 : env.importModuleOk <;>
    cases him2 : env.importFromOk <;>
    simp_all [run, fallbackRun, fallbackNoticeLines, handleInnerExc,
      PyExc.isException, finishRun, reportStep, globStar]

/-- Witness for C3: module missing, cargo subprocess succeeds. -/
theorem import_failure_falls_back_witness :
    envNoModule.libExists = true ∧ envNoModule.udlExists = true ∧
    (envNoModule.importModuleOk = false ∨ envNoModule.importFromOk = false) ∧
    envNoModule.chdirExc = none ∧
    envNoModule.subprocRes = .ok { returncode := 0, stderr := "", filesWritten := [] } ∧
    ((run ["repo", "ios"] envNoModule fsEmpty).subprocCalled = true ∧
     Line.text "   Trying cargo-based approach..." ∈
       (run ["repo", "ios"] envNoModule fsEmpty).output ∧
     (({ returncode := 0, stderr := "", filesWritten := [] } : SubprocRes).returncode = 0 →
       (run ["repo", "ios"] envNoModule fsEmpty).exitCode = 0)) :=
  ⟨rfl, rfl, Or.inl rfl, rfl, rfl,
   import_failure_falls_back ["repo", "ios"] envNoModule fsEmpty
     { returncode := 0, stderr := "", filesWritten := [] }
     rfl rfl (Or.inl rfl) rfl rfl⟩

/-- C4: when the fallback runs and the cargo subprocess exits with a
non-zero return code, the run prints the error banner and the captured
standard-error text and exits with status 1. -/
theorem subprocess_failure_exit_one (sd : List String) (env : Env) (fs : FS)
    (res : SubprocRes)
    (hl : env.libExists = true) (hu : env.udlExists = true)
    (hf : fallbackTaken env)
    (hch : env.chdirExc = none) (hsub : env.subprocRes = .ok res)
    (hrc : res.returncode ≠ 0) :
    (run sd env fs).exitCode = 1 ∧
    Line.stderrText res.stderr ∈ (run sd env fs).output ∧
    Line.text "❌ Error generating bindings:" ∈ (run sd env fs).output := by
  rcases hf with him | him | ⟨m, hm⟩ <;>
    cases him1 : env.importModuleOk <;>
    cases him2 : env.importFromOk <;>
    simp_all [run, fallbackRun, fallbackNoticeLines, handleInnerExc,
      PyExc.isException, finishRun, reportStep, globStar]

/-- Witness for C4: module missing, cargo exits with status 101. -/
theorem subprocess_failure_exit_one_witness :
    envBadSub.libExists = true ∧ envBadSub.udlExists = true ∧
    fallbackTaken envBadSub ∧ envBadSub.chdirExc = none ∧
    envBadSub.subprocRes =
      .ok { returncode := 101, stderr := "error: no bin target", filesWritten := [] } ∧
    (101 : Int) ≠ 0 ∧
    ((run ["repo", "ios"] envBadSub fsEmpty).exitCode = 1 ∧
     Line.stderrText "error: no bin target" ∈ (run ["repo", "ios"] envBadSub fsEmpty).output ∧
     Line.text "❌ Error generating bindings:" ∈ (run ["repo", "ios"] envBadSub fsEmpty).output) :=
  ⟨rfl, rfl, Or.inl rfl, rfl, rfl, by decide,
   subprocess_failure_exit_one ["repo", "ios"] envBadSub fsEmpty
     { returncode := 101, stderr := "error: no bin target", filesWritten := [] }
     rfl rfl (Or.inl rfl) rfl rfl (by decide)⟩

/-- C5 counterexample: when `generate_bindings` raises an ordinary
(non-import) exception, only `except ImportError` is in scope, so the
exception escapes `main`: the process does exit with status 1 and the
interpreter reports the exception, but the manual-recovery instructions of
lines 88-90 are NOT printed — refuting the claim that they are shown. -/
theorem unexpected_exception_counterexample :
    (run ["repo", "ios"] envGenBoom fsEmpty).exitCode = 1 ∧
    (run ["repo", "ios"] envGenBoom fsEmpty).uncaught = some (.otherExc "boom") ∧
    Line.text "\nManual generation required:" ∉
      (run ["repo", "ios"] envGenBoom fsEmpty).output := by
  decide

/-- C5 as amended: an ordinary (non-`ImportError`, non-`SystemExit`)
exception from `generate_bindings` propagates uncaught: the process
terminates with status 1 and the interpreter shows the exception in a
traceback, but no manual-recovery instructions are printed. -/
theorem unexpected_exception_uncaught (sd : List String) (env : Env) (fs : FS)
    (m : String)
    (hl : env.libExists = true) (hu : env.udlExists = true)
    (him : env.importModuleOk = true) (hif : env.importFromOk = true)
    (hg : env.genResult = .error (.otherExc m)) :
    (run sd env fs).exitCode = 1 ∧
    (run sd env fs).uncaught = some (.otherExc m) ∧
    Line.text "\nManual generation required:" ∉ (run sd env fs).output ∧
    (∀ s, Line.fallbackError s ∉ (run sd env fs).output) := by
  refine ⟨?_, ?_, ?_, ?_⟩ <;>
    simp [run, hl, hu, him, hif, hg, headerLines]

/-- Witness for the amended C5 at a concrete raising generator. -/
theorem unexpected_exception_uncaught_witness :
    envGenBoom.libExists = true ∧ envGenBoom.udlExists = true ∧
    envGenBoom.importModuleOk = true ∧ envGenBoom.importFromOk = true ∧
    envGenBoom.genResult = .error (.otherExc "boom") ∧
    ((run ["repo", "ios"] envGenBoom fsEmpty).exitCode = 1 ∧
     (run ["repo", "ios"] envGenBoom fsEmpty).uncaught = some (.otherExc "boom") ∧
     Line.text "\nManual generation required:" ∉
       (run ["repo", "ios"] envGenBoom fsEmpty).output ∧
     (∀ s, Line.fallbackError s ∉ (run ["repo", "ios"] envGenBoom fsEmpty).output)) :=
  ⟨rfl, rfl, rfl, rfl, rfl,
   unexpected_exception_uncaught ["repo", "ios"] envGenBoom fsEmpty "boom"
     rfl rfl rfl rfl rfl⟩

/-- C10: inside the fallback, the `sys.exit(1)` raised on a non-zero
cargo return code is a `SystemExit`, which `except Exception` does not
intercept — so the manual-installation guidance is printed only when the
fallback raises an ordinary exception (`os.chdir` or `subprocess.run`
failing), never on a plain non-zero generator exit; both fallback failure
modes end with exit status exactly 1. -/
theorem systemexit_not_caught_by_handler (sd : List String) (env : Env) (fs : FS)
    (hl : env.libExists = true) (hu : env.udlExists = true)
    (hf : fallbackTaken env) :
    (∀ res, env.chdirExc = none → env.subprocRes = .ok res → res.returncode ≠ 0 →
      (run sd env fs).exitCode = 1 ∧
      Line.text "\nManual generation required:" ∉ (run sd env fs).output) ∧
    (∀ e, env.chdirExc = some e → e.isException = true →
      (run sd env fs).exitCode = 1 ∧
      Line.text "\nManual generation required:" ∈ (run sd env fs).output ∧
      Line.fallbackError e.message ∈ (run sd env fs).output) ∧
    (∀ e, env.chdirExc = none → env.subprocRes = .error e → e.isException = true →
      (run sd env fs).exitCode = 1 ∧
      Line.text "\nManual generation required:" ∈ (run sd env fs).output ∧
      Line.fallbackError e.message ∈ (run sd env fs).output) := by
  refine ⟨fun res hch hsub hrc => ?_, fun e hch hexc => ?_, fun e hch hsub hexc => ?_⟩ <;>
    rcases hf with him | him | ⟨m, hm⟩ <;>
    cases him1 : env.importModuleOk <;>
    cases him2 : env.importFromOk <;>
    simp_all [run, fallbackRun, fallbackNoticeLines, handleInnerExc,
      PyExc.isException, manualGuidanceLines, headerLines]

/-- Witness for C10: a guidance-printing run (`os.chdir` raises). -/
theorem systemexit_not_caught_by_handler_witness :
    envChdirFail.libExists = true ∧ envChdirFail.udlExists = true ∧
    fallbackTaken envChdirFail ∧
    ((∀ res, envChdirFail.chdirExc = none → envChdirFail.subprocRes = .ok res →
        res.returncode ≠ 0 →
        (run ["repo", "ios"] envChdirFail fsEmpty).exitCode = 1 ∧
        Line.text "\nManual generation required:" ∉
          (run ["repo", "ios"] envChdirFail fsEmpty).output) ∧
     (∀ e, envChdirFail.chdirExc = some e → e.isException = true →
        (run ["repo", "ios"] envChdirFail fsEmpty).exitCode = 1 ∧
        Line.text "\nManual generation required:" ∈
          (run ["repo", "ios"] envChdirFail fsEmpty).output ∧
        Line.fallbackError e.message ∈ (run ["repo", "ios"] envChdirFail fsEmpty).output) ∧
     (∀ e, envChdirFail.chdirExc = none → envChdirFail.subprocRes = .error e →
        e.isException = true →
        (run ["repo", "ios"] envChdirFail fsEmpty).exitCode = 1 ∧
        Line.text "\nManual generation required:" ∈
          (run ["repo", "ios"] envChdirFail fsEmpty).output ∧
        Line.fallbackError e.message ∈ (run ["repo", "ios"] envChdirFail fsEmpty).output)) :=
  ⟨rfl, rfl, Or.inl rfl,
   systemexit_not_caught_by_handler ["repo", "ios"] envChdirFail fsEmpty
     rfl rfl (Or.inl rfl)⟩

end GenerateSwiftBindings
